import Mathlib

/-!
Verification of the kiosk client (lock screen session handlers, network
manager reconnection logic, kiosk controller policy/state machine) against
its natural-language specification.  All definitions are shallow embeddings
of the Python source in `src/client/src`: times are modelled as integer
minutes, registry paths as functions from value names to optional DWORDs,
and each message handler as a pure function from state (plus the extracted
message fields) to a new state and a list of emitted signals.
-/

namespace Client

/-! ## Session state (lock_screen.py, `SessionState` and `LockScreen.handle_*`) -/

/-- Mirror of the `SessionState` dataclass in lock_screen.py.  Times are in
integer minutes; `endTime`/`pauseTime` are absolute instants, `remainingTime`
is a duration (Python `timedelta`).  The `timer_process` field is UI plumbing
and is not modelled. -/
structure SessionState where
  active : Bool
  sessionId : Option String
  endTime : Option Int
  paused : Bool
  pauseTime : Option Int
  remainingTime : Option Int
  deriving Repr, DecidableEq

/-- Qt signals emitted by the lock-screen handlers. -/
inductive LEvent
  | sessionStarted (sessionId : String) (duration : Int)
  | sessionEnded
  | sessionPaused
  | sessionResumed
  deriving Repr, DecidableEq

/-- `LockScreen.handle_start_session`: extracts `session_id` and `duration`
from the message (absent field modelled as `none`); Python truthiness makes
`not session_id` reject `None` and the empty string, and `not duration`
reject `None` and `0` (negative durations are accepted).  On acceptance every
session field is overwritten, `duration` being in hours (60 minutes each). -/
def handleStartSession (st : SessionState) (sessionId : Option String)
    (duration : Option Int) (now : Int) : SessionState × List LEvent :=
  match sessionId, duration with
  | some sid, some d =>
      if sid = "" ∨ d = 0 then (st, [])
      else
        ({ active := true, sessionId := some sid, endTime := some (now + 60 * d),
           paused := false, pauseTime := none, remainingTime := none },
         [LEvent.sessionStarted sid d])
  | _, _ => (st, [])

/-- `LockScreen.handle_end_session`: a no-op when inactive, otherwise resets
every field and emits `session_ended`. -/
def handleEndSession (st : SessionState) : SessionState × List LEvent :=
  if st.active then
    ({ active := false, sessionId := none, endTime := none,
       paused := false, pauseTime := none, remainingTime := none },
     [LEvent.sessionEnded])
  else (st, [])

/-- `LockScreen.handle_extend_session`: `minutes = message.get('minutes', 0)`;
returns early when `minutes` is falsy (absent or zero) or the session is
inactive; otherwise adds `minutes` to `end_time` when it is set.  Note that
`remaining_time` is never touched. -/
def handleExtendSession (st : SessionState) (minutes : Option Int) :
    SessionState × List LEvent :=
  let m := minutes.getD 0
  if m = 0 ∨ st.active = false then (st, [])
  else
    match st.endTime with
    | some et => ({ st with endTime := some (et + m) }, [])
    | none => (st, [])

/-- `LockScreen.handle_pause_session`: a no-op when inactive or already
paused; otherwise sets `paused`, records `pause_time := now` and, when an end
time exists, captures `remaining_time := end_time - pause_time`. -/
def handlePauseSession (st : SessionState) (now : Int) :
    SessionState × List LEvent :=
  if st.active = false ∨ st.paused then (st, [])
  else
    let st1 := { st with paused := true, pauseTime := some now }
    match st1.endTime with
    | some et => ({ st1 with remainingTime := some (et - now) }, [LEvent.sessionPaused])
    | none => (st1, [LEvent.sessionPaused])

/-- `LockScreen.handle_resume_session`: a no-op when inactive or not paused;
clears `paused`/`pause_time`, and — only when `remaining_time` is truthy,
i.e. present and nonzero — sets `end_time := now + remaining_time` and clears
`remaining_time`.  A captured remaining time of exactly zero is falsy in
Python, so it is left in place and `end_time` is not recomputed. -/
def handleResumeSession (st : SessionState) (now : Int) :
    SessionState × List LEvent :=
  if st.active = false ∨ st.paused = false then (st, [])
  else
    let st1 := { st with paused := false, pauseTime := none }
    match st1.remainingTime with
    | some r =>
        if r = 0 then (st1, [LEvent.sessionResumed])
        else ({ st1 with endTime := some (now + r), remainingTime := none },
              [LEvent.sessionResumed])
    | none => (st1, [LEvent.sessionResumed])

/-! ## Network manager (network_manager.py) -/

/-- Mirror of the `ConnectionState` dataclass: connection flag, last known
server address, retry counter and the backoff parameters (`reconnect_delay`
is in seconds).  The `last_heartbeat` field is not needed by any claim. -/
structure ConnectionState where
  connected : Bool
  serverIp : Option String
  serverPort : Option Nat
  reconnectAttempts : Nat
  maxReconnectAttempts : Nat
  reconnectDelay : Nat
  deriving Repr, DecidableEq

/-- The state `NetworkManager.__init__` builds (`ConnectionState()` defaults:
disconnected, no server, 0 attempts, max 5, base delay 5 seconds). -/
def initialConnectionState : ConnectionState :=
  { connected := false, serverIp := none, serverPort := none,
    reconnectAttempts := 0, maxReconnectAttempts := 5, reconnectDelay := 5 }

/-- `NetworkManager._cleanup_connection`: clears the connection flag and the
stored server address (the retry counter is left untouched). -/
def cleanupConnection (s : ConnectionState) : ConnectionState :=
  { s with connected := false, serverIp := none, serverPort := none }

/-- Outcome of `NetworkManager._handle_connection_lost`: the new state, the
delay of the reconnection task it spawned (if any), and whether the terminal
`error_occurred` max-attempts event fired. -/
structure LossOutcome where
  state : ConnectionState
  scheduledDelay : Option Nat
  terminalError : Bool
  deriving Repr, DecidableEq

/-- `NetworkManager._handle_connection_lost`: a no-op when already
disconnected; otherwise clears `connected`, increments the retry counter,
and either emits the terminal error (counter above the maximum, after
cleanup) or schedules one reconnection after
`min(reconnect_delay * 2^(attempts-1), 60)` seconds. -/
def handleConnectionLost (s : ConnectionState) : LossOutcome :=
  if s.connected = false then ⟨s, none, false⟩
  else
    let s1 := { s with connected := false,
                       reconnectAttempts := s.reconnectAttempts + 1 }
    if s1.maxReconnectAttempts < s1.reconnectAttempts then
      ⟨cleanupConnection s1, none, true⟩
    else
      ⟨s1, some (min (s1.reconnectDelay * 2 ^ (s1.reconnectAttempts - 1)) 60), false⟩

/-- `NetworkManager.connect_to_server`: returns success immediately when
already connected; otherwise either establishes the connection (storing the
address, refreshing the heartbeat, and resetting `reconnect_attempts` to 0)
or fails and runs `_cleanup_connection`.  The socket outcome is an oracle
argument. -/
def connectToServer (s : ConnectionState) (ip : String) (port : Nat)
    (socketOk : Bool) : ConnectionState × Bool :=
  if s.connected then (s, true)
  else if socketOk then
    ({ s with connected := true, serverIp := some ip, serverPort := some port,
              reconnectAttempts := 0 }, true)
  else (cleanupConnection s, false)

/-- `NetworkManager._reconnect`: after the delay, does nothing when no
server address is stored; otherwise calls `connect_to_server` on it and
resets the retry counter on success. -/
def reconnect (s : ConnectionState) (socketOk : Bool) : ConnectionState :=
  match s.serverIp, s.serverPort with
  | some ip, some port =>
      let r := connectToServer s ip port socketOk
      if r.2 then { r.1 with reconnectAttempts := 0 } else r.1
  | _, _ => s

/-- The externally triggered transitions of the network manager: an initial
`connect_to_server` call, a connection loss (socket error, empty read or
failed heartbeat send), or the scheduled reconnection task firing. -/
inductive NetEvent
  | connectCall (ip : String) (port : Nat) (socketOk : Bool)
  | loss
  | reconnectTask (socketOk : Bool)
  deriving Repr, DecidableEq

/-- One transition of the network state machine. -/
def netStep (s : ConnectionState) : NetEvent → ConnectionState
  | NetEvent.connectCall ip port ok => (connectToServer s ip port ok).1
  | NetEvent.loss => (handleConnectionLost s).state
  | NetEvent.reconnectTask ok => reconnect s ok

/-- Running the network state machine over a list of events. -/
def netRun (s : ConnectionState) (evs : List NetEvent) : ConnectionState :=
  evs.foldl netStep s

/-! ## Kiosk controller (kiosk_controller.py) -/

/-- Mirror of the `KioskMode` enum. -/
inductive KioskMode
  | disabled
  | enabled
  | transitioning
  deriving Repr, DecidableEq

/-- One registry path, as the ordered association list of its values
(`winreg.EnumValue` enumeration order); a real registry path never holds two
values with the same name.  `_backup_registry_keys` snapshots this list
into a JSON dict (preserving order) and `_restore_registry_keys` writes the
dict's items back in that same order, so the ordered list is the faithful
carrier for both. -/
abbrev RegPath := List (String × Nat)

/-- `winreg.SetValueEx`: overwrites the named value in place when it is
present, otherwise creates it. -/
def setVal : RegPath → String → Nat → RegPath
  | [], n, v => [(n, v)]
  | e :: t, n, v => if e.1 == n then (n, v) :: t else e :: setVal t n v

/-- `winreg.QueryValueEx`: data of the named value, `none` when absent. -/
def getVal (m : RegPath) (n : String) : Option Nat :=
  (m.find? (fun e => e.1 == n)).map Prod.snd

/-- The two registry paths `enable_kiosk_mode` touches:
`...\Policies\System` and `...\Policies\Explorer` under HKCU. -/
structure Registry where
  system : RegPath
  explorer : RegPath
  deriving Repr, DecidableEq

/-- Controller state relevant to enable/disable: the mode, the live
registry, and the JSON backup files `_backup_registry_keys` writes (one per
path; `none` when the file does not exist).  Backup files persist across
calls. -/
structure KState where
  mode : KioskMode
  reg : Registry
  backupSys : Option RegPath
  backupExp : Option RegPath
  deriving Repr, DecidableEq

/-- Failure oracle for one `_restore_registry_keys` run: for each path,
`none` means every backed-up value is written back; `some k` means a
`WindowsError` (OSError) is raised after `k` successful `SetValueEx` calls
on that path (`k = 0` covers an `OpenKey` failure), which the per-path
`except` swallows, abandoning the rest of that path's restore.  The only
failure that escapes `_restore_registry_keys` instead (its outer `raise`)
is a corrupted backup file whose `json.load` throws a non-OSError; backup
files are modelled as structured snapshots, so that corruption case is
outside this state space. -/
structure RestoreOracle where
  sysFailAt : Option Nat
  expFailAt : Option Nat
  deriving Repr, DecidableEq

/-- Failure oracle for one `enable_kiosk_mode` call, in step order: whether
`_backup_registry_keys` hits a per-path `WindowsError` (swallowed; that
path's backup file is left as it was, possibly stale from an earlier
enable); which of the three `_configure_registry` writes raises, if any;
whether `_kill_blocked_processes` or `_start_allowed_apps` raises; and how
the rollback restore behaves if a step did fail. -/
structure EnableOracle where
  backupSysFails : Bool
  backupExpFails : Bool
  configFailAt : Option (Fin 3)
  killFails : Bool
  appsFail : Bool
  restoreOnFail : RestoreOracle
  deriving Repr, DecidableEq

/-- `_configure_registry`: writes `DisableTaskMgr := 1` and
`DisableRegistryTools := 1` under the System path and `NoRun := 1` under the
Explorer path, in that order; a failing write raises, leaving the writes
made so far in place (`Except.error` carries the partial registry). -/
def configureRegistry (reg : Registry) (failAt : Option (Fin 3)) :
    Except Registry Registry :=
  if failAt = some 0 then Except.error reg
  else
    let reg1 := { reg with system := setVal reg.system "DisableTaskMgr" 1 }
    if failAt = some 1 then Except.error reg1
    else
      let reg2 := { reg1 with system := setVal reg1.system "DisableRegistryTools" 1 }
      if failAt = some 2 then Except.error reg2
      else Except.ok { reg2 with explorer := setVal reg2.explorer "NoRun" 1 }

/-- `_restore_registry_keys` on one path whose backup file exists: the
backed-up values are written back in order (`SetValueEx` per entry) until
the per-path failure point, if any; values absent from the backup — in
particular values first created after the snapshot was taken — are left
untouched, never deleted. -/
def restorePath (cur : RegPath) (bak : RegPath) (failAt : Option Nat) :
    RegPath :=
  let entries : RegPath :=
    match failAt with
    | none => bak
    | some k => bak.take k
  entries.foldl (fun acc e => setVal acc e.1 e.2) cur

/-- `_restore_registry_keys` over both paths: a path with no backup file is
skipped (`continue`); otherwise its backup is replayed up to that path's
failure point. -/
def restoreRegistryKeys (bakSys bakExp : Option RegPath) (reg : Registry)
    (ro : RestoreOracle) : Registry :=
  { system := match bakSys with
      | some bak => restorePath reg.system bak ro.sysFailAt
      | none => reg.system,
    explorer := match bakExp with
      | some bak => restorePath reg.explorer bak ro.expFailAt
      | none => reg.explorer }

/-- `KioskController.enable_kiosk_mode`: success short-circuit from Enabled;
otherwise sets Transitioning, runs `_backup_registry_keys` (each path's
snapshot is freshly written unless that path's backup fails, in which case
the previous backup file — possibly stale — is retained), then runs
configure / kill / start-apps.  The `except` handler of any step failure
runs `_restore_registry_keys` against whatever backup files are on disk and
forces the mode to Disabled, returning failure. -/
def enableKioskMode (st : KState) (o : EnableOracle) : KState × Bool :=
  if st.mode = KioskMode.enabled then (st, true)
  else
    let bakSys := if o.backupSysFails then st.backupSys else some st.reg.system
    let bakExp := if o.backupExpFails then st.backupExp else some st.reg.explorer
    let st1 : KState :=
      { st with mode := KioskMode.transitioning,
                backupSys := bakSys, backupExp := bakExp }
    match configureRegistry st1.reg o.configFailAt with
    | Except.error regPartial =>
        ({ st1 with
            reg := restoreRegistryKeys bakSys bakExp regPartial o.restoreOnFail,
            mode := KioskMode.disabled }, false)
    | Except.ok reg1 =>
        if o.killFails then
          ({ st1 with
              reg := restoreRegistryKeys bakSys bakExp reg1 o.restoreOnFail,
              mode := KioskMode.disabled }, false)
        else if o.appsFail then
          ({ st1 with
              reg := restoreRegistryKeys bakSys bakExp reg1 o.restoreOnFail,
              mode := KioskMode.disabled }, false)
        else ({ st1 with reg := reg1, mode := KioskMode.enabled }, true)

/-- Failure oracle for `disable_kiosk_mode`: whether `_stop_running_apps`
raises (before the registry restore is reached), and how the restore
behaves when it is reached. -/
structure DisableOracle where
  stopAppsFail : Bool
  restoreOracle : RestoreOracle
  deriving Repr, DecidableEq

/-- `KioskController.disable_kiosk_mode`: success short-circuit from
Disabled; otherwise sets Transitioning, stops the running apps, restores the
registry from the persisted backup files (per-path restore failures
swallowed, as in the oracle) and clears the cache.  Both the success path
and the `except` handler force the mode to Disabled. -/
def disableKioskMode (st : KState) (o : DisableOracle) : KState × Bool :=
  if st.mode = KioskMode.disabled then (st, true)
  else
    let st1 := { st with mode := KioskMode.transitioning }
    if o.stopAppsFail then ({ st1 with mode := KioskMode.disabled }, false)
    else
      ({ st1 with
          reg := restoreRegistryKeys st1.backupSys st1.backupExp st1.reg
                   o.restoreOracle,
          mode := KioskMode.disabled }, true)

/-! ## Enforcement sweep (`KioskController._monitor_processes`) -/

/-- The hardcoded `system_processes` set from `setup_process_lists`
(membership is tested against the lowercased process name, with the set's
original casing). -/
def systemProcesses : List String :=
  ["explorer.exe", "svchost.exe", "csrss.exe", "winlogon.exe",
   "services.exe", "lsass.exe", "spoolsv.exe", "python.exe",
   "pythonw.exe", "System", "System Idle Process", "conhost.exe",
   "dwm.exe", "fontdrvhost.exe", "sihost.exe", "taskhostw.exe",
   "RuntimeBroker.exe", "ctfmon.exe", "SecurityHealthService.exe"]

/-- The hardcoded `monitored_processes` set from `setup_process_lists`. -/
def monitoredProcesses : List String :=
  ["chrome.exe", "firefox.exe", "msedge.exe", "opera.exe",
   "brave.exe", "discord.exe", "steam.exe", "epicgameslauncher.exe"]

/-- Python's `str.lower()` on one ASCII character. -/
def charLower (c : Char) : Char :=
  if 65 ≤ c.toNat ∧ c.toNat ≤ 90 then Char.ofNat (c.toNat + 32) else c

/-- Python's `str.lower()` (process names are ASCII). -/
def strLower (s : String) : String := String.mk (s.data.map charLower)

/-- One entry of the enumerated process table: pid, image name, and the
direct parent's image name (`none` when `proc.parent()` is `None`). -/
structure ProcEntry where
  pid : Nat
  pname : String
  parentName : Option String
  deriving Repr, DecidableEq

/-- Mutable state threaded through one sweep: the name-to-pid process cache,
plus the observable effects (the `process_blocked` emissions in order, and
the pids passed to `proc.kill()`). -/
structure SweepState where
  cache : String → Option Nat
  blockedEvents : List String
  killedPids : List Nat

/-- `del self.process_cache[name]`. -/
def cacheDel (c : String → Option Nat) (n : String) : String → Option Nat :=
  fun x => if x = n then none else c x

/-- `self.process_cache[name] = pid`. -/
def cacheAdd (c : String → Option Nat) (n : String) (pid : Nat) :
    String → Option Nat :=
  fun x => if x = n then some pid else c x

/-- The checks of the per-process loop body after the cache lookup, in
source order: skip names in `system_processes`, skip pids at or below 4,
skip processes whose parent's name is in `system_processes`, cache-and-skip
names in `monitored_processes`, and kill anything else, emitting one
`process_blocked` per killed process. -/
def sweepRest (st : SweepState) (p : ProcEntry) (nm : String) : SweepState :=
  if systemProcesses.contains nm then st
  else if p.pid ≤ 4 then st
  else if (match p.parentName with
           | some pn => systemProcesses.contains (strLower pn)
           | none => false) then st
  else if monitoredProcesses.contains nm then
    { st with cache := cacheAdd st.cache nm p.pid }
  else
    { st with blockedEvents := st.blockedEvents ++ [nm],
              killedPids := st.killedPids ++ [p.pid] }

/-- The whole per-process loop body: processes whose lowercased name is
cached with a still-live pid are skipped outright; a stale cache entry is
deleted before the remaining checks run.  `pidAlive` is the
`psutil.pid_exists` oracle. -/
def sweepStep (pidAlive : Nat → Bool) (st : SweepState) (p : ProcEntry) :
    SweepState :=
  let nm := strLower p.pname
  match st.cache nm with
  | some cachedPid =>
      if pidAlive cachedPid then st
      else sweepRest { st with cache := cacheDel st.cache nm } p nm
  | none => sweepRest st p nm

/-- `KioskController._monitor_processes`: returns immediately unless the
mode is Enabled, otherwise folds the loop body over the process table. -/
def monitorProcesses (mode : KioskMode) (pidAlive : Nat → Bool)
    (procs : List ProcEntry) (st : SweepState) : SweepState :=
  if mode = KioskMode.enabled then procs.foldl (sweepStep pidAlive) st else st

/-- The disjunction of conditions under which the loop body leaves a process
alone, given the cache state at the moment it is examined.  Note it consults
the hardcoded `monitored_processes` set — not the configured
`allowed_apps`. -/
def sweepAllows (pidAlive : Nat → Bool) (cache : String → Option Nat)
    (p : ProcEntry) : Bool :=
  let nm := strLower p.pname
  (match cache nm with
   | some cachedPid => pidAlive cachedPid
   | none => false) ||
  systemProcesses.contains nm ||
  decide (p.pid ≤ 4) ||
  (match p.parentName with
   | some pn => systemProcesses.contains (strLower pn)
   | none => false) ||
  monitoredProcesses.contains nm

/-! ## Application launching (`launch_allowed_app` and `_launch_app`) -/

/-- Mirror of the `AppConfig` dataclass (name, executable path, args). -/
structure AppConfig where
  name : String
  path : String
  args : List String
  deriving Repr, DecidableEq

/-- Filesystem oracle: `os.path.exists` and `glob.glob`. -/
structure FileSys where
  pathExists : String → Bool
  globMatch : String → List String

/-- Controller state relevant to launching: the `allowed_apps` config map
and the names recorded in `running_apps`. -/
structure AppState where
  allowedApps : String → Option AppConfig
  runningApps : List String

/-- Observable effects of a launch: `subprocess.Popen` calls and
`app_launch_failed` emissions. -/
inductive AppEvent
  | spawned (path : String) (args : List String)
  | launchFailed (appName : String)
  deriving Repr, DecidableEq

/-- Python's `'*' in path` test. -/
def hasWildcard (path : String) : Bool := path.data.contains '*'

/-- The single wildcard-glob expansion both launch paths use: a path
containing `*` resolves to the first glob match (`none` when the glob finds
nothing); other paths resolve to themselves. -/
def resolvePath (fs : FileSys) (path : String) : Option String :=
  if hasWildcard path then
    match fs.globMatch path with
    | [] => none
    | p :: _ => some p
  else some path

/-- `KioskController.launch_allowed_app`: fails when the name is not in
`allowed_apps`, when the wildcard glob matches nothing (logged only), or
when the resolved path does not exist (which also emits
`app_launch_failed`).  On success it spawns the process and returns true —
without recording anything in `running_apps` and without any
already-running check. -/
def launchAllowedApp (fs : FileSys) (st : AppState) (appName : String) :
    Bool × AppState × List AppEvent :=
  match st.allowedApps appName with
  | none => (false, st, [])
  | some cfg =>
      match resolvePath fs cfg.path with
      | none => (false, st, [])
      | some p =>
          if fs.pathExists p then (true, st, [AppEvent.spawned p cfg.args])
          else (false, st, [AppEvent.launchFailed appName])

/-- `KioskController._launch_app` (used by `_start_allowed_apps` during
enable): a no-op when the app name is already in `running_apps`; raises
(`Except.error`) when glob resolution fails or the path is missing; on
success spawns the process and records it in `running_apps`. -/
def launchAppInternal (fs : FileSys) (st : AppState) (cfg : AppConfig) :
    Except String (AppState × List AppEvent) :=
  if st.runningApps.contains cfg.name then Except.ok (st, [])
  else
    match resolvePath fs cfg.path with
    | none => Except.error "no files found matching pattern"
    | some p =>
        if fs.pathExists p then
          Except.ok ({ st with runningApps := st.runningApps ++ [cfg.name] },
                     [AppEvent.spawned p cfg.args])
        else Except.error "application not found"

/-! ## Theorems about the session handlers -/

/-- Claim C2, counterexample: with an active paused session (paused at 100
with 30 minutes captured, nominal end time 130), `extend_session{minutes=10}`
followed by `resume_session` at 200 yields `end_time = 230` — the effective
remaining time is the captured 30 minutes, not 40: the extension applied
while paused is lost at the next resume, contradicting the claim that the
remaining time used at the next resume grows by `m`. -/
theorem c2_extend_counterexample :
    (handleResumeSession
        (handleExtendSession
          { active := true, sessionId := some "s", endTime := some 130,
            paused := true, pauseTime := some 100, remainingTime := some 30 }
          (some 10)).1 200).1.endTime = some 230 ∧
    ¬ (handleResumeSession
        (handleExtendSession
          { active := true, sessionId := some "s", endTime := some 130,
            paused := true, pauseTime := some 100, remainingTime := some 30 }
          (some 10)).1 200).1.endTime = some 240 := by
  decide

/-- Claim C2, amended: `extend_session{minutes=m}` (m ≠ 0, session active)
always adds `m` to `end_time`.  For an unpaused session this increases the
effective remaining time by exactly `m`; for a paused session the handler
leaves `remaining_time` untouched, so the next `resume_session` recomputes
`end_time` from the un-extended captured remaining time and the extension is
lost. -/
theorem c2_extend_effective_time :
    (∀ (st : SessionState) (et m : Int), st.active = true → st.paused = false →
        st.endTime = some et → m ≠ 0 →
        (handleExtendSession st (some m)).1 = { st with endTime := some (et + m) }) ∧
    (∀ (st : SessionState) (et r m now : Int), st.active = true → st.paused = true →
        st.endTime = some et → st.remainingTime = some r → r ≠ 0 → m ≠ 0 →
        (handleResumeSession (handleExtendSession st (some m)).1 now).1.endTime =
          some (now + r)) := by
  constructor
  · intro st et m ha hp he hm
    simp [handleExtendSession, ha, he, hm]
  · intro st et r m now ha hp he hr hrz hm
    simp [handleExtendSession, handleResumeSession, ha, hp, he, hr, hrz, hm]

/-- Witness for C2 at concrete inputs: an unpaused extension moves the end
time from 100 to 110, and an extension applied while paused is lost at the
next resume (end time 230, i.e. 200 + the captured 30). -/
theorem c2_extend_effective_time_witness :
    (handleExtendSession
        { active := true, sessionId := some "s", endTime := some 100,
          paused := false, pauseTime := none, remainingTime := none }
        (some 10)).1 =
      { active := true, sessionId := some "s", endTime := some 110,
        paused := false, pauseTime := none, remainingTime := none } ∧
    (handleResumeSession
        (handleExtendSession
          { active := true, sessionId := some "s", endTime := some 130,
            paused := true, pauseTime := some 100, remainingTime := some 30 }
          (some 10)).1 200).1.endTime = some 230 :=
  ⟨c2_extend_effective_time.1 _ 100 10 rfl rfl rfl (by decide),
   c2_extend_effective_time.2 _ 130 30 10 200 rfl rfl rfl rfl (by decide) (by decide)⟩

/-- Claim C5, counterexample: pausing an active session exactly at its end
time (end 100, pause at 100) captures `remaining_time = 0`; since a zero
`timedelta` is falsy, the resume at 105 does not recompute `end_time`, which
stays 100 — the remaining time in effect after the resume is -5 minutes,
not the 0 captured at the pause, so the pair is not exactly
time-preserving. -/
theorem c5_pause_resume_counterexample :
    (handlePauseSession
        { active := true, sessionId := some "s", endTime := some 100,
          paused := false, pauseTime := none, remainingTime := none }
        100).1.remainingTime = some 0 ∧
    (handleResumeSession
        (handlePauseSession
          { active := true, sessionId := some "s", endTime := some 100,
            paused := false, pauseTime := none, remainingTime := none }
          100).1 105).1.endTime = some 100 ∧
    (100 : Int) - 105 ≠ 0 := by
  decide

/-- Claim C5, amended: for an active unpaused session with end time `et`,
pausing at `p` captures `remaining_time = et - p`, and — provided that
captured remaining time is nonzero — the matching resume at `r` sets
`end_time = r + (et - p)`, so the remaining time in effect immediately after
the resume equals the remaining time captured at the pause (the resulting
state is again active and unpaused, so the equality propagates across any
alternating sequence of such pairs). -/
theorem c5_pause_resume_no_leak (st : SessionState) (et p r : Int)
    (ha : st.active = true) (hp : st.paused = false) (he : st.endTime = some et)
    (hnz : et - p ≠ 0) :
    (handlePauseSession st p).1.remainingTime = some (et - p) ∧
    (handleResumeSession (handlePauseSession st p).1 r).1.endTime =
      some (r + (et - p)) ∧
    (handleResumeSession (handlePauseSession st p).1 r).1.active = true ∧
    (handleResumeSession (handlePauseSession st p).1 r).1.paused = false ∧
    (handleResumeSession (handlePauseSession st p).1 r).1.remainingTime = none := by
  simp [handlePauseSession, handleResumeSession, ha, hp, he, hnz]

/-- Witness for C5: pausing at 40 a session ending at 100 captures 60
minutes; resuming at 70 sets the end time to 130 = 70 + 60. -/
theorem c5_pause_resume_no_leak_witness :
    (handlePauseSession
        { active := true, sessionId := some "s", endTime := some 100,
          paused := false, pauseTime := none, remainingTime := none }
        40).1.remainingTime = some 60 ∧
    (handleResumeSession
        (handlePauseSession
          { active := true, sessionId := some "s", endTime := some 100,
            paused := false, pauseTime := none, remainingTime := none }
          40).1 70).1.endTime = some 130 := by
  have h := c5_pause_resume_no_leak
    { active := true, sessionId := some "s", endTime := some 100,
      paused := false, pauseTime := none, remainingTime := none }
    100 40 70 rfl rfl rfl (by decide)
  exact ⟨h.1, h.2.1⟩

/-- Claim C6, counterexample: a `start_session` message with the negative
duration -2 is accepted, not rejected — Python's `not duration` only screens
out a missing or zero duration — and the session state is changed to an
active session whose end time lies two hours in the past. -/
theorem c6_start_validation_counterexample :
    (handleStartSession
        { active := false, sessionId := none, endTime := none,
          paused := false, pauseTime := none, remainingTime := none }
        (some "s7") (some (-2)) 1000).1 =
      { active := true, sessionId := some "s7", endTime := some 880,
        paused := false, pauseTime := none, remainingTime := none } := by
  decide

/-- Claim C6, amended: `start_session` rejects (returns with the state
unchanged and no signal) exactly when `session_id` is missing or empty or
`duration` is missing or zero; any other message — including one with a
negative duration — sets `active = true`, `paused = false` and
`end_time = now + 60 * duration`. -/
theorem c6_start_validation (st : SessionState) (now : Int) :
    (∀ d, handleStartSession st none d now = (st, [])) ∧
    (∀ d, handleStartSession st (some "") d now = (st, [])) ∧
    (∀ sid, handleStartSession st sid none now = (st, [])) ∧
    (∀ sid, handleStartSession st sid (some 0) now = (st, [])) ∧
    (∀ sid d, sid ≠ "" → d ≠ 0 →
        handleStartSession st (some sid) (some d) now =
          ({ active := true, sessionId := some sid, endTime := some (now + 60 * d),
             paused := false, pauseTime := none, remainingTime := none },
           [LEvent.sessionStarted sid d])) := by
  refine ⟨?_, ?_, ?_, ?_, ?_⟩
  · intro d; cases d <;> rfl
  · intro d; cases d <;> simp [handleStartSession]
  · intro sid; cases sid <;> rfl
  · intro sid; cases sid <;> simp [handleStartSession]
  · intro sid d hsid hd; simp [handleStartSession, hsid, hd]

/-- Witness for C6: a zero duration is rejected while duration 2 with id
"s7" is accepted with end time 120 minutes from now 0. -/
theorem c6_start_validation_witness :
    handleStartSession
        { active := false, sessionId := none, endTime := none,
          paused := false, pauseTime := none, remainingTime := none }
        (some "s7") (some 0) 0 =
      ({ active := false, sessionId := none, endTime := none,
         paused := false, pauseTime := none, remainingTime := none }, []) ∧
    handleStartSession
        { active := false, sessionId := none, endTime := none,
          paused := false, pauseTime := none, remainingTime := none }
        (some "s7") (some 2) 0 =
      ({ active := true, sessionId := some "s7", endTime := some 120,
         paused := false, pauseTime := none, remainingTime := none },
       [LEvent.sessionStarted "s7" 2]) :=
  ⟨(c6_start_validation _ 0).2.2.2.1 (some "s7"),
   (c6_start_validation _ 0).2.2.2.2 "s7" 2 (by decide) (by decide)⟩

/-- Claim C8, confirmed: handling `end_session` a second time is idempotent —
whatever the starting state, the state left by one `end_session` is inactive,
and a further `end_session` returns it unchanged with no signals emitted and
no error. -/
theorem c8_end_session_idempotent (st : SessionState) :
    handleEndSession (handleEndSession st).1 = ((handleEndSession st).1, []) := by
  by_cases h : st.active <;> simp [handleEndSession, h]

/-- Claim C10, confirmed: a valid `start_session` (nonempty id, positive
duration) arriving in any state — in particular while a session is active,
or paused — unconditionally replaces the session: id and end time are
overwritten, `paused`/`pause_time`/`remaining_time` are cleared, and the
only signal emitted is `session_started` (no rejection, no `session_ended`
for the replaced session). -/
theorem c10_start_replaces_active (st : SessionState) (sid : String)
    (d : Int) (now : Int) (hactive : st.active = true) (hsid : sid ≠ "")
    (hd : 0 < d) :
    handleStartSession st (some sid) (some d) now =
      ({ active := true, sessionId := some sid, endTime := some (now + 60 * d),
         paused := false, pauseTime := none, remainingTime := none },
       [LEvent.sessionStarted sid d]) := by
  have hd' : d ≠ 0 := by omega
  simp [handleStartSession, hsid, hd']

/-- Witness for C10: an active paused session is replaced wholesale by a
fresh two-hour session, with the pause bookkeeping cleared. -/
theorem c10_start_replaces_active_witness :
    handleStartSession
        { active := true, sessionId := some "old", endTime := some 500,
          paused := true, pauseTime := some 400, remainingTime := some 100 }
        (some "new") (some 2) 1000 =
      ({ active := true, sessionId := some "new", endTime := some 1120,
         paused := false, pauseTime := none, remainingTime := none },
       [LEvent.sessionStarted "new" 2]) :=
  c10_start_replaces_active
    { active := true, sessionId := some "old", endTime := some 500,
      paused := true, pauseTime := some 400, remainingTime := some 100 }
    "new" 2 1000 rfl (by decide) (by decide)

/-! ## Theorems about the network manager -/

/-- Invariant of the reachable connection states: a connected state always
has a zero retry counter (every successful connect resets it), the counter
never exceeds 1, and the backoff parameters keep their constructed values. -/
def netInv (s : ConnectionState) : Prop :=
  (s.connected = true → s.reconnectAttempts = 0) ∧
  s.reconnectAttempts ≤ 1 ∧
  s.maxReconnectAttempts = 5 ∧
  s.reconnectDelay = 5

theorem netInv_initial : netInv initialConnectionState := by
  refine ⟨?_, ?_, rfl, rfl⟩ <;> simp [initialConnectionState]

theorem netInv_step (s : ConnectionState) (e : NetEvent) (h : netInv s) :
    netInv (netStep s e) := by
  obtain ⟨h1, h2, h3, h4⟩ := h
  cases e with
  | connectCall ip port ok =>
      by_cases hc : s.connected = true
      · simp [netStep, connectToServer, hc, netInv, h1 hc, h3, h4]
      · cases ok <;>
          simp [netStep, connectToServer, hc, cleanupConnection, netInv, h2, h3, h4]
  | loss =>
      by_cases hc : s.connected = true
      · simp [netStep, handleConnectionLost, hc, h1 hc, netInv, h3, h4]
      · simp only [Bool.not_eq_true] at hc
        simp [netStep, handleConnectionLost, hc, netInv, h1, h2, h3, h4]
  | reconnectTask ok =>
      rcases hip : s.serverIp with _ | ip <;> rcases hpt : s.serverPort with _ | pt
      · simp only [netStep, reconnect, hip]; exact ⟨h1, h2, h3, h4⟩
      · simp only [netStep, reconnect, hip]; exact ⟨h1, h2, h3, h4⟩
      · simp only [netStep, reconnect, hip, hpt]; exact ⟨h1, h2, h3, h4⟩
      · by_cases hc : s.connected = true
        · simp [netStep, reconnect, connectToServer, hip, hpt, hc, netInv, h3, h4]
        · cases ok <;>
            simp [netStep, reconnect, connectToServer, hip, hpt, hc,
                  cleanupConnection, netInv, h2, h3, h4]

theorem netInv_run (evs : List NetEvent) :
    netInv (netRun initialConnectionState evs) := by
  suffices h : ∀ s, netInv s → netInv (netRun s evs) from h _ netInv_initial
  induction evs with
  | nil => intro s hs; exact hs
  | cons e t ih => intro s hs; exact ih _ (netInv_step s e hs)

/-- Claim C3, counterexample: connect successfully, lose the connection (one
reconnection task is scheduled, after 5 seconds), and let that reconnection
attempt fail.  The resulting state has `reconnect_attempts = 1`, well below
the maximum of 5, yet the stored host and port have been wiped by
`_cleanup_connection`, and connection-loss handling from here is a no-op:
no further retry is ever scheduled (the claimed 10 s second retry never
happens) and no terminal error event is emitted. -/
theorem c3_reconnect_counterexample :
    netRun initialConnectionState
        [NetEvent.connectCall "192.168.0.2" 5000 true, NetEvent.loss,
         NetEvent.reconnectTask false] =
      { connected := false, serverIp := none, serverPort := none,
        reconnectAttempts := 1, maxReconnectAttempts := 5, reconnectDelay := 5 } ∧
    (handleConnectionLost
        (netRun initialConnectionState
          [NetEvent.connectCall "192.168.0.2" 5000 true, NetEvent.loss,
           NetEvent.reconnectTask false])).scheduledDelay = none ∧
    (handleConnectionLost
        (netRun initialConnectionState
          [NetEvent.connectCall "192.168.0.2" 5000 true, NetEvent.loss,
           NetEvent.reconnectTask false])).terminalError = false := by
  decide

/-- Claim C3, amended: in every reachable state of the network manager the
retry counter is at most 1 (a connected state has counter 0, and each loss
increments it once), so losing an established connection schedules exactly
one reconnection task, always with delay
`min(baseDelay * 2^(attempts-1), 60) = 5` seconds; the exponential tail
10 s, 20 s, 40 s, 60 s and the max-attempts terminal error are unreachable.
Loss handling while already disconnected schedules nothing, and a successful
`connect_to_server` call always resets the retry counter to 0. -/
theorem c3_reconnect_single_retry (evs : List NetEvent) :
    (netRun initialConnectionState evs).reconnectAttempts ≤ 1 ∧
    (handleConnectionLost (netRun initialConnectionState evs)).terminalError
      = false ∧
    (handleConnectionLost (netRun initialConnectionState evs)).scheduledDelay
      = (if (netRun initialConnectionState evs).connected then some 5 else none) ∧
    (∀ ip port,
        (connectToServer (netRun initialConnectionState evs) ip port
          true).1.reconnectAttempts = 0) := by
  obtain ⟨h1, h2, h3, h4⟩ := netInv_run evs
  refine ⟨h2, ?_, ?_, ?_⟩
  · by_cases hc : (netRun initialConnectionState evs).connected = true
    · simp [handleConnectionLost, hc, h1 hc, h3, h4]
    · simp only [Bool.not_eq_true] at hc
      simp [handleConnectionLost, hc]
  · by_cases hc : (netRun initialConnectionState evs).connected = true
    · simp [handleConnectionLost, hc, h1 hc, h3, h4]
    · simp only [Bool.not_eq_true] at hc
      simp [handleConnectionLost, hc]
  · intro ip port
    by_cases hc : (netRun initialConnectionState evs).connected = true
    · simp [connectToServer, hc, h1 hc]
    · simp only [Bool.not_eq_true] at hc
      simp [connectToServer, hc]


/-! ## Theorems about the kiosk mode state machine -/

theorem getVal_setVal_self (m : RegPath) (n : String) (v : Nat) :
    getVal (setVal m n v) n = some v := by
  induction m with
  | nil => simp [setVal, getVal]
  | cons e t ih =>
      by_cases h : e.1 == n
      · simp [setVal, getVal, h]
      · simp only [setVal, h, Bool.false_eq_true, if_false]
        simpa [getVal, List.find?_cons, h] using ih

theorem getVal_setVal_ne (m : RegPath) (k n : String) (v : Nat)
    (hkn : k ≠ n) :
    getVal (setVal m k v) n = getVal m n := by
  induction m with
  | nil => simp [setVal, getVal, List.find?_cons, hkn]
  | cons e t ih =>
      by_cases h : e.1 == k
      · have he : e.1 = k := by simpa using h
        simp [setVal, getVal, List.find?_cons, h, he, hkn]
      · by_cases hn : e.1 == n <;>
          simp only [setVal, h, Bool.false_eq_true, if_false] <;>
          simpa [getVal, List.find?_cons, hn] using ih

theorem getVal_foldl_ne (l : RegPath) (acc : RegPath) (n : String)
    (hl : ∀ e ∈ l, e.1 ≠ n) :
    getVal (l.foldl (fun acc e => setVal acc e.1 e.2) acc) n = getVal acc n := by
  induction l generalizing acc with
  | nil => rfl
  | cons e t ih =>
      rw [List.foldl_cons, ih _ (fun x hx => hl x (List.mem_cons_of_mem _ hx)),
          getVal_setVal_ne _ _ _ _ (hl e (List.mem_cons_self _ _))]

theorem getVal_replay (bak : RegPath) (n : String) (v : Nat) :
    ∀ cur : RegPath, (bak.map Prod.fst).Nodup → getVal bak n = some v →
      getVal (bak.foldl (fun acc e => setVal acc e.1 e.2) cur) n = some v := by
  induction bak with
  | nil => intro cur _ h; simp [getVal] at h
  | cons e t ih =>
      intro cur hnd h
      rw [List.map_cons, List.nodup_cons] at hnd
      rw [List.foldl_cons]
      by_cases hen : e.1 == n
      · have he : e.1 = n := by simpa using hen
        have hv : e.2 = v := by
          simpa [getVal, List.find?_cons, hen] using h
        have ht : ∀ x ∈ t, x.1 ≠ n := by
          intro x hx hxn
          apply hnd.1
          have hmem : x.1 ∈ t.map Prod.fst := List.mem_map_of_mem Prod.fst hx
          rw [he, ← hxn]
          exact hmem
        rw [getVal_foldl_ne t _ n ht, he, hv]
        exact getVal_setVal_self cur n v
      · have h' : getVal t n = some v := by
          simpa [getVal, List.find?_cons, hen] using h
        exact ih (setVal cur e.1 e.2) hnd.2 h'

/-- Replaying a duplicate-free backup in full writes every backed-up value
back: after the replay, every name present in the backup carries its
backed-up data. -/
theorem getVal_restorePath_none (bak : RegPath) (n : String) (v : Nat) :
    ∀ cur : RegPath, (bak.map Prod.fst).Nodup → getVal bak n = some v →
      getVal (restorePath cur bak none) n = some v := by
  intro cur hnd h
  exact getVal_replay bak n v cur hnd h

/-- Helper: `enable_kiosk_mode` never returns with the mode still
Transitioning. -/
theorem enableKioskMode_mode_resolves (st : KState) (o : EnableOracle) :
    (enableKioskMode st o).1.mode ≠ KioskMode.transitioning := by
  by_cases h : st.mode = KioskMode.enabled
  · simp [enableKioskMode, h]
  · simp only [enableKioskMode, if_neg h]
    rcases hc : configureRegistry st.reg o.configFailAt with reg1 | reg1
    · simp [hc]
    · rcases hk : o.killFails <;> rcases ha : o.appsFail <;> simp [hc, hk, ha]

/-- Helper: `disable_kiosk_mode` never returns with the mode still
Transitioning. -/
theorem disableKioskMode_mode_resolves (st : KState) (o : DisableOracle) :
    (disableKioskMode st o).1.mode ≠ KioskMode.transitioning := by
  unfold disableKioskMode
  split
  · next h => simp [h]
  · split <;> simp

/-- Helper: every failing `enable_kiosk_mode` run ends Disabled with result
`false`, its registry produced by replaying the on-disk backup files (fresh
snapshot per path unless that path's backup failed) over some
mid-failure registry, under the call's restore oracle. -/
theorem enableKioskMode_fail_shape (st : KState) (o : EnableOracle)
    (hmode : st.mode ≠ KioskMode.enabled)
    (hfail : o.configFailAt.isSome = true ∨ o.killFails = true ∨
             o.appsFail = true) :
    ∃ mid : Registry,
      enableKioskMode st o =
        ({ mode := KioskMode.disabled,
           reg := restoreRegistryKeys
             (if o.backupSysFails then st.backupSys else some st.reg.system)
             (if o.backupExpFails then st.backupExp else some st.reg.explorer)
             mid o.restoreOnFail,
           backupSys :=
             if o.backupSysFails then st.backupSys else some st.reg.system,
           backupExp :=
             if o.backupExpFails then st.backupExp else some st.reg.explorer },
         false) := by
  rcases o with ⟨bs, be, cf, kf, af, ro⟩
  unfold enableKioskMode
  rw [if_neg hmode]
  rcases cf with _ | i
  · rcases kf with _ | _
    · rcases af with _ | _
      · simp at hfail
      · exact ⟨_, rfl⟩
    · exact ⟨_, rfl⟩
  · fin_cases i <;> exact ⟨_, rfl⟩

/-- Claim C1, counterexample, two failing-enable scenarios with the second
`_configure_registry` write failing.  (a) From a registry in which
`DisableTaskMgr` is absent, the rollback leaves `DisableTaskMgr = 1` behind:
restore only writes back values present in the backup snapshot and never
deletes a value created during the enable.  (b) From a registry with
`DisableTaskMgr = 0`, a `WindowsError` at the start of the System path's
restore (caught per path, kiosk_controller.py:420-421) skips that path's
replay, so the call still returns failure normally with mode Disabled but
`DisableTaskMgr` is left at 1, not its pre-enable 0.  In both runs an
already-modified policy key is not restored to its pre-enable value. -/
theorem c1_enable_rollback_counterexample :
    (enableKioskMode
        { mode := KioskMode.disabled,
          reg := { system := [], explorer := [] },
          backupSys := none, backupExp := none }
        { backupSysFails := false, backupExpFails := false,
          configFailAt := some 1, killFails := false, appsFail := false,
          restoreOnFail := { sysFailAt := none, expFailAt := none } }).2
      = false ∧
    (enableKioskMode
        { mode := KioskMode.disabled,
          reg := { system := [], explorer := [] },
          backupSys := none, backupExp := none }
        { backupSysFails := false, backupExpFails := false,
          configFailAt := some 1, killFails := false, appsFail := false,
          restoreOnFail := { sysFailAt := none, expFailAt := none } }).1.mode
      = KioskMode.disabled ∧
    getVal ({ system := [], explorer := [] } : Registry).system
        "DisableTaskMgr" = none ∧
    getVal (enableKioskMode
        { mode := KioskMode.disabled,
          reg := { system := [], explorer := [] },
          backupSys := none, backupExp := none }
        { backupSysFails := false, backupExpFails := false,
          configFailAt := some 1, killFails := false, appsFail := false,
          restoreOnFail := { sysFailAt := none, expFailAt := none }
        }).1.reg.system "DisableTaskMgr" = some 1 ∧
    (enableKioskMode
        { mode := KioskMode.disabled,
          reg := { system := [("DisableTaskMgr", 0)], explorer := [] },
          backupSys := none, backupExp := none }
        { backupSysFails := false, backupExpFails := false,
          configFailAt := some 1, killFails := false, appsFail := false,
          restoreOnFail := { sysFailAt := some 0, expFailAt := none } }).2
      = false ∧
    (enableKioskMode
        { mode := KioskMode.disabled,
          reg := { system := [("DisableTaskMgr", 0)], explorer := [] },
          backupSys := none, backupExp := none }
        { backupSysFails := false, backupExpFails := false,
          configFailAt := some 1, killFails := false, appsFail := false,
          restoreOnFail := { sysFailAt := some 0, expFailAt := none } }).1.mode
      = KioskMode.disabled ∧
    getVal (enableKioskMode
        { mode := KioskMode.disabled,
          reg := { system := [("DisableTaskMgr", 0)], explorer := [] },
          backupSys := none, backupExp := none }
        { backupSysFails := false, backupExpFails := false,
          configFailAt := some 1, killFails := false, appsFail := false,
          restoreOnFail := { sysFailAt := some 0, expFailAt := none }
        }).1.reg.system "DisableTaskMgr" = some 1 := by
  decide

/-- Claim C1, amended: when any step of `enable_kiosk_mode` after entering
Transitioning fails, the call returns failure with the mode forced back to
Disabled — never Transitioning, and likewise for `disable_kiosk_mode`.  The
rollback's guarantee is conditional: for a registry path whose backup
snapshot was freshly written in this call (its per-path backup did not fail)
and whose per-path restore ran to completion (no `WindowsError` part-way),
every value that existed on that path before the enable began is restored
to its pre-enable data.  A path whose backup failed is rolled back from the
stale previous backup file (or not at all), a path whose restore fails
part-way keeps later modified values, and values first created during the
enable are never deleted (see the counterexample). -/
theorem c1_enable_failure_rolls_back :
    (∀ (st : KState) (o : EnableOracle),
        st.mode ≠ KioskMode.enabled →
        o.configFailAt.isSome = true ∨ o.killFails = true ∨ o.appsFail = true →
        (enableKioskMode st o).2 = false ∧
        (enableKioskMode st o).1.mode = KioskMode.disabled) ∧
    (∀ (st : KState) (o : EnableOracle),
        st.mode ≠ KioskMode.enabled →
        o.configFailAt.isSome = true ∨ o.killFails = true ∨ o.appsFail = true →
        o.backupSysFails = false →
        o.restoreOnFail.sysFailAt = none →
        (st.reg.system.map Prod.fst).Nodup →
        ∀ n v, getVal st.reg.system n = some v →
          getVal (enableKioskMode st o).1.reg.system n = some v) ∧
    (∀ (st : KState) (o : EnableOracle),
        st.mode ≠ KioskMode.enabled →
        o.configFailAt.isSome = true ∨ o.killFails = true ∨ o.appsFail = true →
        o.backupExpFails = false →
        o.restoreOnFail.expFailAt = none →
        (st.reg.explorer.map Prod.fst).Nodup →
        ∀ n v, getVal st.reg.explorer n = some v →
          getVal (enableKioskMode st o).1.reg.explorer n = some v) ∧
    (∀ (st : KState) (o : EnableOracle),
        (enableKioskMode st o).1.mode ≠ KioskMode.transitioning) ∧
    (∀ (st : KState) (o : DisableOracle),
        (disableKioskMode st o).1.mode ≠ KioskMode.transitioning) := by
  refine ⟨?_, ?_, ?_, enableKioskMode_mode_resolves,
          disableKioskMode_mode_resolves⟩
  · intro st o hmode hfail
    obtain ⟨mid, heq⟩ := enableKioskMode_fail_shape st o hmode hfail
    rw [heq]
    exact ⟨rfl, rfl⟩
  · intro st o hmode hfail hbs hro hnd n v h
    obtain ⟨mid, heq⟩ := enableKioskMode_fail_shape st o hmode hfail
    rw [heq]
    simp only [restoreRegistryKeys, hbs, hro, Bool.false_eq_true, if_false]
    exact getVal_restorePath_none st.reg.system n v mid.system hnd h
  · intro st o hmode hfail hbe hro hnd n v h
    obtain ⟨mid, heq⟩ := enableKioskMode_fail_shape st o hmode hfail
    rw [heq]
    simp only [restoreRegistryKeys, hbe, hro, Bool.false_eq_true, if_false]
    exact getVal_restorePath_none st.reg.explorer n v mid.explorer hnd h

/-- Witness for C1: with `DisableTaskMgr` pre-set to 0, the second configure
write failing, the backup fresh and the restore completing, the call fails,
ends Disabled, and restores `DisableTaskMgr` to 0. -/
theorem c1_enable_failure_rolls_back_witness :
    (enableKioskMode
        { mode := KioskMode.disabled,
          reg := { system := [("DisableTaskMgr", 0)], explorer := [] },
          backupSys := none, backupExp := none }
        { backupSysFails := false, backupExpFails := false,
          configFailAt := some 1, killFails := false, appsFail := false,
          restoreOnFail := { sysFailAt := none, expFailAt := none } }).2
      = false ∧
    (enableKioskMode
        { mode := KioskMode.disabled,
          reg := { system := [("DisableTaskMgr", 0)], explorer := [] },
          backupSys := none, backupExp := none }
        { backupSysFails := false, backupExpFails := false,
          configFailAt := some 1, killFails := false, appsFail := false,
          restoreOnFail := { sysFailAt := none, expFailAt := none } }).1.mode
      = KioskMode.disabled ∧
    getVal (enableKioskMode
        { mode := KioskMode.disabled,
          reg := { system := [("DisableTaskMgr", 0)], explorer := [] },
          backupSys := none, backupExp := none }
        { backupSysFails := false, backupExpFails := false,
          configFailAt := some 1, killFails := false, appsFail := false,
          restoreOnFail := { sysFailAt := none, expFailAt := none }
        }).1.reg.system "DisableTaskMgr" = some 0 := by
  have h1 := c1_enable_failure_rolls_back.1
    { mode := KioskMode.disabled,
      reg := { system := [("DisableTaskMgr", 0)], explorer := [] },
      backupSys := none, backupExp := none }
    { backupSysFails := false, backupExpFails := false,
      configFailAt := some 1, killFails := false, appsFail := false,
      restoreOnFail := { sysFailAt := none, expFailAt := none } }
    (by decide) (by decide)
  have h2 := c1_enable_failure_rolls_back.2.1
    { mode := KioskMode.disabled,
      reg := { system := [("DisableTaskMgr", 0)], explorer := [] },
      backupSys := none, backupExp := none }
    { backupSysFails := false, backupExpFails := false,
      configFailAt := some 1, killFails := false, appsFail := false,
      restoreOnFail := { sysFailAt := none, expFailAt := none } }
    (by decide) (by decide) rfl rfl (by decide) "DisableTaskMgr" 0 (by decide)
  exact ⟨h1.1, h1.2, h2⟩

/-- Claim C7, counterexample: a call to `enable_kiosk_mode` while the mode
is Transitioning is not rejected: with every step succeeding it performs the
registry writes (e.g. `DisableTaskMgr := 1`) and returns success with the
mode Enabled, where the claim demands a failure return with no policy
writes. -/
theorem c7_transitioning_counterexample :
    (enableKioskMode
        { mode := KioskMode.transitioning,
          reg := { system := [], explorer := [] },
          backupSys := none, backupExp := none }
        { backupSysFails := false, backupExpFails := false,
          configFailAt := none, killFails := false, appsFail := false,
          restoreOnFail := { sysFailAt := none, expFailAt := none } }).2
      = true ∧
    (enableKioskMode
        { mode := KioskMode.transitioning,
          reg := { system := [], explorer := [] },
          backupSys := none, backupExp := none }
        { backupSysFails := false, backupExpFails := false,
          configFailAt := none, killFails := false, appsFail := false,
          restoreOnFail := { sysFailAt := none, expFailAt := none } }).1.mode
      = KioskMode.enabled ∧
    getVal (enableKioskMode
        { mode := KioskMode.transitioning,
          reg := { system := [], explorer := [] },
          backupSys := none, backupExp := none }
        { backupSysFails := false, backupExpFails := false,
          configFailAt := none, killFails := false, appsFail := false,
          restoreOnFail := { sysFailAt := none, expFailAt := none }
        }).1.reg.system "DisableTaskMgr" = some 1 := by
  decide

/-- Claim C7, amended: calls made while the mode is Transitioning are not
rejected: `enable_kiosk_mode` behaves exactly as it does from Disabled
(only Enabled short-circuits) and `disable_kiosk_mode` exactly as from
Enabled (only Disabled short-circuits); in all cases the call completes
with the mode resolved to Disabled or Enabled, never left Transitioning. -/
theorem c7_transitioning_not_rejected (st : KState) (o : EnableOracle)
    (od : DisableOracle) :
    enableKioskMode { st with mode := KioskMode.transitioning } o =
      enableKioskMode { st with mode := KioskMode.disabled } o ∧
    disableKioskMode { st with mode := KioskMode.transitioning } od =
      disableKioskMode { st with mode := KioskMode.enabled } od ∧
    (enableKioskMode { st with mode := KioskMode.transitioning } o).1.mode ≠
      KioskMode.transitioning ∧
    (disableKioskMode { st with mode := KioskMode.transitioning } od).1.mode ≠
      KioskMode.transitioning :=
  ⟨rfl, rfl, enableKioskMode_mode_resolves _ o, disableKioskMode_mode_resolves _ od⟩



/-! ## Theorems about the enforcement sweep -/

theorem sweepRest_spec (st : SweepState) (p : ProcEntry) (nm : String) :
    (sweepRest st p nm).blockedEvents =
      st.blockedEvents ++
        (if (systemProcesses.contains nm || decide (p.pid ≤ 4) ||
             (match p.parentName with
              | some pn => systemProcesses.contains (strLower pn)
              | none => false) ||
             monitoredProcesses.contains nm) then [] else [nm]) ∧
    (sweepRest st p nm).killedPids =
      st.killedPids ++
        (if (systemProcesses.contains nm || decide (p.pid ≤ 4) ||
             (match p.parentName with
              | some pn => systemProcesses.contains (strLower pn)
              | none => false) ||
             monitoredProcesses.contains nm) then [] else [p.pid]) := by
  unfold sweepRest
  by_cases h1 : nm ∈ systemProcesses
  · simp [h1]
  · by_cases h2 : p.pid ≤ 4
    · simp [h1, h2]
    · rcases hp : p.parentName with _ | pn
      · by_cases h4 : nm ∈ monitoredProcesses <;> simp [h1, h2, hp, h4]
      · by_cases h3 : strLower pn ∈ systemProcesses
        · simp [h1, h2, hp, h3]
        · by_cases h4 : nm ∈ monitoredProcesses <;>
            simp [h1, h2, hp, h3, h4]

/-- Claim C4, counterexample: a process whose name is a key of the
configured AllowedApp set ("game.exe") but is not in the hardcoded
`system_processes`/`monitored_processes` sets is terminated by the sweep and
a `process_blocked("game.exe")` fires — the sweep never consults the
AllowedApp configuration, contradicting the claim that membership in the
AllowedApp allow-list protects a process. -/
theorem c4_sweep_counterexample :
    ((fun n => if n = "game.exe" then
        some { name := "game.exe", path := "C:/games/game.exe", args := [] }
      else none : String → Option AppConfig) "game.exe").isSome = true ∧
    (monitorProcesses KioskMode.enabled (fun _ => true)
        [⟨501, "game.exe", some "launcher.exe"⟩]
        { cache := fun _ => none, blockedEvents := [], killedPids := [] }).blockedEvents
      = ["game.exe"] ∧
    (monitorProcesses KioskMode.enabled (fun _ => true)
        [⟨501, "game.exe", some "launcher.exe"⟩]
        { cache := fun _ => none, blockedEvents := [], killedPids := [] }).killedPids
      = [501] := by
  decide

/-- Claim C4, amended: during one sweep iteration while the mode is Enabled,
a process is left alone exactly when its (lowercased) name is cached with a
still-live pid, or is in the hardcoded system allow-list, or its PID is at
or below 4, or its direct parent name is in the system allow-list, or its
name is in the hardcoded monitored-processes list (not the configured
AllowedApp set); every other process is killed with exactly one
`process_blocked` emission.  In particular a `cmd.exe` process on neither
list is killed with exactly one `process_blocked("cmd.exe")`. -/
theorem c4_sweep_characterization :
    (∀ (pidAlive : Nat → Bool) (st : SweepState) (p : ProcEntry),
        (sweepStep pidAlive st p).blockedEvents =
          st.blockedEvents ++
            (if sweepAllows pidAlive st.cache p then [] else [strLower p.pname]) ∧
        (sweepStep pidAlive st p).killedPids =
          st.killedPids ++
            (if sweepAllows pidAlive st.cache p then [] else [p.pid])) ∧
    (monitorProcesses KioskMode.enabled (fun _ => true)
        [⟨1234, "cmd.exe", some "gaming_center.exe"⟩]
        { cache := fun _ => none, blockedEvents := [], killedPids := [] }).blockedEvents
      = ["cmd.exe"] := by
  constructor
  · intro pidAlive st p
    unfold sweepStep sweepAllows
    rcases hc : st.cache (strLower p.pname) with _ | cp
    · simpa [hc] using sweepRest_spec st p (strLower p.pname)
    · cases ha : pidAlive cp
      · simpa [hc, ha] using
          sweepRest_spec { st with cache := cacheDel st.cache (strLower p.pname) }
            p (strLower p.pname)
      · simp [hc, ha]
  · decide



/-! ## Theorems about application launching -/

/-- Claim C9, counterexample: "game" is an allowed app whose path exists and
whose name is already in `running_apps`, yet `launch_allowed_app` spawns a
second process (a `Popen` call is made) and returns success, and even on
this successful launch `running_apps` is left unchanged — no
RunningAppHandle is recorded and the call is not an idempotent no-op. -/
theorem c9_launch_counterexample :
    ({ allowedApps := fun n =>
          if n = "game" then
            some { name := "game", path := "C:/game.exe", args := [] }
          else none,
       runningApps := ["game"] } : AppState).runningApps = ["game"] ∧
    (launchAllowedApp
        { pathExists := fun _ => true, globMatch := fun _ => [] }
        { allowedApps := fun n =>
            if n = "game" then
              some { name := "game", path := "C:/game.exe", args := [] }
            else none,
          runningApps := ["game"] } "game").1 = true ∧
    (launchAllowedApp
        { pathExists := fun _ => true, globMatch := fun _ => [] }
        { allowedApps := fun n =>
            if n = "game" then
              some { name := "game", path := "C:/game.exe", args := [] }
            else none,
          runningApps := ["game"] } "game").2.2 =
      [AppEvent.spawned "C:/game.exe" []] ∧
    (launchAllowedApp
        { pathExists := fun _ => true, globMatch := fun _ => [] }
        { allowedApps := fun n =>
            if n = "game" then
              some { name := "game", path := "C:/game.exe", args := [] }
            else none,
          runningApps := ["game"] } "game").2.1.runningApps = ["game"] := by
  refine ⟨rfl, ?_, ?_, rfl⟩ <;> decide

/-- Claim C9, amended: `launch_allowed_app` succeeds exactly when the name
is a configured allowed app whose path resolves (one wildcard-glob
expansion) to an existing file, and on success it spawns the process — but
it records nothing in `running_apps` (the state is returned unchanged in
every case) and performs no already-running check, so repeated launches
spawn repeated processes.  Only the internal `_launch_app` used by the
enable-time autostart is idempotent (`ok` with no spawn when the name is in
`running_apps`) and records a RunningAppHandle on success. -/
theorem c9_launch_characterization :
    (∀ (fs : FileSys) (st : AppState) (nm : String),
        (launchAllowedApp fs st nm).2.1 = st) ∧
    (∀ (fs : FileSys) (st : AppState) (nm : String),
        (launchAllowedApp fs st nm).1 =
          (match st.allowedApps nm with
           | some cfg =>
               (match resolvePath fs cfg.path with
                | some p => fs.pathExists p
                | none => false)
           | none => false)) ∧
    (∀ (fs : FileSys) (st : AppState) (nm : String) (cfg : AppConfig)
        (p : String),
        st.allowedApps nm = some cfg → resolvePath fs cfg.path = some p →
        fs.pathExists p = true →
        (launchAllowedApp fs st nm).2.2 = [AppEvent.spawned p cfg.args]) ∧
    (∀ (fs : FileSys) (st : AppState) (cfg : AppConfig),
        st.runningApps.contains cfg.name = true →
        launchAppInternal fs st cfg = Except.ok (st, [])) ∧
    (∀ (fs : FileSys) (st : AppState) (cfg : AppConfig) (p : String),
        st.runningApps.contains cfg.name = false →
        resolvePath fs cfg.path = some p → fs.pathExists p = true →
        launchAppInternal fs st cfg =
          Except.ok ({ st with runningApps := st.runningApps ++ [cfg.name] },
                     [AppEvent.spawned p cfg.args])) := by
  refine ⟨?_, ?_, ?_, ?_, ?_⟩
  · intro fs st nm
    unfold launchAllowedApp
    rcases hA : st.allowedApps nm with _ | cfg
    · rfl
    · rcases hR : resolvePath fs cfg.path with _ | p
      · simp [hR]
      · by_cases hex : fs.pathExists p = true <;> simp [hR, hex]
  · intro fs st nm
    unfold launchAllowedApp
    rcases hA : st.allowedApps nm with _ | cfg
    · rfl
    · rcases hR : resolvePath fs cfg.path with _ | p
      · simp [hR]
      · by_cases hex : fs.pathExists p = true <;> simp [hR, hex]
  · intro fs st nm cfg p hcfg hres hex
    unfold launchAllowedApp
    simp [hcfg, hres, hex]
  · intro fs st cfg hrun
    have hmem : cfg.name ∈ st.runningApps := by simpa using hrun
    unfold launchAppInternal
    simp [hmem]
  · intro fs st cfg p hrun hres hex
    have hmem : cfg.name ∉ st.runningApps := by simpa using hrun
    unfold launchAppInternal
    simp [hmem, hres, hex]

/-- Witness for C9: launching the configured "game" (path existing, not yet
running) emits one spawn; the internal autostart launch is a no-op when
"game" is already running, and records the handle when it is not. -/
theorem c9_launch_characterization_witness :
    (launchAllowedApp
        { pathExists := fun _ => true, globMatch := fun _ => [] }
        { allowedApps := fun n =>
            if n = "game" then
              some { name := "game", path := "C:/game.exe", args := [] }
            else none,
          runningApps := [] } "game").2.2 =
      [AppEvent.spawned "C:/game.exe" []] ∧
    launchAppInternal
        { pathExists := fun _ => true, globMatch := fun _ => [] }
        { allowedApps := fun _ => none, runningApps := ["game"] }
        { name := "game", path := "C:/game.exe", args := [] } =
      Except.ok ({ allowedApps := fun _ => none, runningApps := ["game"] }, []) ∧
    launchAppInternal
        { pathExists := fun _ => true, globMatch := fun _ => [] }
        { allowedApps := fun _ => none, runningApps := [] }
        { name := "game", path := "C:/game.exe", args := [] } =
      Except.ok ({ allowedApps := fun _ => none, runningApps := ["game"] },
                 [AppEvent.spawned "C:/game.exe" []]) := by
  refine ⟨?_, ?_, ?_⟩
  · exact c9_launch_characterization.2.2.1
      { pathExists := fun _ => true, globMatch := fun _ => [] }
      { allowedApps := fun n =>
          if n = "game" then
            some { name := "game", path := "C:/game.exe", args := [] }
          else none,
        runningApps := [] } "game"
      { name := "game", path := "C:/game.exe", args := [] } "C:/game.exe"
      (by decide) (by decide) rfl
  · exact c9_launch_characterization.2.2.2.1
      { pathExists := fun _ => true, globMatch := fun _ => [] }
      { allowedApps := fun _ => none, runningApps := ["game"] }
      { name := "game", path := "C:/game.exe", args := [] } (by decide)
  · exact c9_launch_characterization.2.2.2.2
      { pathExists := fun _ => true, globMatch := fun _ => [] }
      { allowedApps := fun _ => none, runningApps := [] }
      { name := "game", path := "C:/game.exe", args := [] } "C:/game.exe"
      (by decide) (by decide) rfl


end Client
